import Mathlib

/-
Verification of the JWS signing-envelope crate (jose-jws, with its
collaborators jose-jwa and jose-b64) against its natural-language
specification.

The development shallowly embeds the Rust source:

* `Json` models the fragment of `serde_json::Value` the envelope uses, and
  `jsonRender` its compact serialization (`serde_json::to_string` /
  `to_vec`).  The crate in question is built with `serde_json`'s
  `preserve_order` behaviour (object fields keep insertion order), which is
  what the crate's own HS256 test vector pins down, so objects are ordered
  association lists.
* `Sha2` implements FIPS 180-4 SHA-256/384/512 and RFC 2104 HMAC over
  byte lists (`List Nat`, each element < 256).  These stand for the external
  RustCrypto `sha2`/`hmac` crates, which the spec treats as out-of-scope
  collaborators assumed correct.
* `Jws` embeds `jose-jws/src/signing.rs` and `jose-jws/src/formats.rs`:
  the `Signing` algorithm tag, the `Protected` header, the `Signature`
  envelope with its `sign_bytes` / `unsign` / `new_unsigned` transitions,
  and the Flat / Compact format adapters together with the derived serde
  serialization the source actually produces.

Bytes are `Nat`s reduced mod 256 where they are produced; machine words in
the hash are `Nat`s reduced mod 2^32 / 2^64 at every operation.
-/

/-- Force a natural number to a literal before continuing.  Reduction of the
embedding's loops is driven by kernel evaluation; matching on the number
evaluates it eagerly so that accumulator thunks stay shallow. -/
def seqNat (n : Nat) (k : Nat → α) : α :=
  match n with
  | 0 => k 0
  | m + 1 => k (m + 1)

/-- Force every element of a list of naturals. -/
def forceNatList : List Nat → List Nat
  | [] => []
  | n :: ns => seqNat n fun m => m :: forceNatList ns

/-- ASCII/UTF-8 bytes of a string.  All data appearing in the crate's header
and payload fixtures is ASCII, where codepoints and UTF-8 bytes coincide. -/
def asciiBytes (s : String) : List Nat :=
  s.data.map Char.toNat

/-! ## JSON values and their compact serialization -/

/-- The fragment of `serde_json::Value` exercised by the envelope: null,
booleans, (unsigned) numbers, strings, and objects.  Objects are ordered
association lists, matching `preserve_order` (insertion-ordered) maps. -/
inductive Json where
  | null
  | bool (b : Bool)
  | num (n : Nat)
  | str (s : String)
  | obj (fields : List (String × Json))

/-- Lower-case hexadecimal digit. -/
def hexDigit (n : Nat) : Char :=
  if n < 10 then Char.ofNat (48 + n) else Char.ofNat (87 + n)

/-- Escape one character the way `serde_json` does when writing a JSON
string: quote, backslash, and the control characters. -/
def jsonEscapeChar (c : Char) : List Char :=
  if c.toNat = 34 then [Char.ofNat 92, Char.ofNat 34]
  else if c.toNat = 92 then [Char.ofNat 92, Char.ofNat 92]
  else if c.toNat = 8 then [Char.ofNat 92, 'b']
  else if c.toNat = 9 then [Char.ofNat 92, 't']
  else if c.toNat = 10 then [Char.ofNat 92, 'n']
  else if c.toNat = 12 then [Char.ofNat 92, 'f']
  else if c.toNat = 13 then [Char.ofNat 92, 'r']
  else if c.toNat < 32 then
    [Char.ofNat 92, 'u', '0', '0', hexDigit (c.toNat / 16), hexDigit (c.toNat % 16)]
  else [c]

/-- Escape a whole string for embedding in JSON text. -/
def jsonEscape (s : String) : String :=
  String.mk (s.data.map jsonEscapeChar).flatten

mutual
/-- Compact JSON serialization, as `serde_json::to_string` produces it:
no whitespace, object fields in order. -/
def jsonRender : Json → String
  | Json.null => "null"
  | Json.bool true => "true"
  | Json.bool false => "false"
  | Json.num n => String.mk (Nat.toDigits 10 n)
  | Json.str s => "\"" ++ jsonEscape s ++ "\""
  | Json.obj fs => "\x7b" ++ jsonRenderFields fs ++ "\x7d"

/-- Comma-separated `"key":value` pairs of an object body. -/
def jsonRenderFields : List (String × Json) → String
  | [] => ""
  | [(k, v)] => "\"" ++ jsonEscape k ++ "\":" ++ jsonRender v
  | (k, v) :: kv :: rest =>
    "\"" ++ jsonEscape k ++ "\":" ++ jsonRender v ++ "," ++ jsonRenderFields (kv :: rest)
end

/-- UTF-8 bytes of a JSON value's compact serialization
(`serde_json::to_vec`). -/
def jsonBytes (j : Json) : List Nat :=
  asciiBytes (jsonRender j)

/-- First value bound to a key in an ordered JSON object body
(`serde_json` maps expose the first occurrence). -/
def jsonLookup (key : String) : List (String × Json) → Option Json
  | [] => Option.none
  | (k, v) :: rest => if k = key then Option.some v else jsonLookup key rest

/-! ## Base64url without padding

Modelled from the spec: the `jose-b64` collaborator crate (absent from the
sources, assumed correct) and the `base64ct::Base64UrlUnpadded` codec it
wraps — URL-safe base64, alphabet `A-Z a-z 0-9 - _`, no `=` padding,
strict canonical decoding. -/

/-- The base64url alphabet. -/
def b64uAlphabet : List Char :=
  "ABCDEFGHIJKLMNOPQRSTUVWXYZabcdefghijklmnopqrstuvwxyz0123456789-_".data

/-- Character for a 6-bit group. -/
def b64uChar (n : Nat) : Char :=
  b64uAlphabet.getD n 'A'

/-- Base64url characters of a byte list, unpadded. -/
def b64uChars : List Nat → List Char
  | [] => []
  | [b1] => [b64uChar (b1 / 4), b64uChar (b1 % 4 * 16)]
  | [b1, b2] =>
    [b64uChar (b1 / 4), b64uChar (b1 % 4 * 16 + b2 / 16), b64uChar (b2 % 16 * 4)]
  | b1 :: b2 :: b3 :: rest =>
    b64uChar (b1 / 4) :: b64uChar (b1 % 4 * 16 + b2 / 16) ::
      b64uChar (b2 % 16 * 4 + b3 / 64) :: b64uChar (b3 % 64) :: b64uChars rest

/-- `Base64UrlUnpadded::encode_string`. -/
def b64uEncode (bs : List Nat) : String :=
  String.mk (b64uChars bs)

/-- Value of one base64url character, if it is in the alphabet. -/
def b64uVal (c : Char) : Option Nat :=
  let n := c.toNat
  if 65 ≤ n ∧ n ≤ 90 then Option.some (n - 65)
  else if 97 ≤ n ∧ n ≤ 122 then Option.some (n - 71)
  else if 48 ≤ n ∧ n ≤ 57 then Option.some (n + 4)
  else if n = 45 then Option.some 62
  else if n = 95 then Option.some 63
  else Option.none

/-- Strict unpadded base64url decoding: rejects characters outside the
alphabet, a trailing group of one character, and non-zero trailing bits. -/
def b64uDecodeChars : List Char → Option (List Nat)
  | [] => Option.some []
  | [_] => Option.none
  | [c1, c2] => do
    let v1 ← b64uVal c1
    let v2 ← b64uVal c2
    if v2 % 16 = 0 then Option.some [v1 * 4 + v2 / 16] else Option.none
  | [c1, c2, c3] => do
    let v1 ← b64uVal c1
    let v2 ← b64uVal c2
    let v3 ← b64uVal c3
    if v3 % 4 = 0 then Option.some [v1 * 4 + v2 / 16, v2 % 16 * 16 + v3 / 4]
    else Option.none
  | c1 :: c2 :: c3 :: c4 :: rest => do
    let v1 ← b64uVal c1
    let v2 ← b64uVal c2
    let v3 ← b64uVal c3
    let v4 ← b64uVal c4
    let tail ← b64uDecodeChars rest
    Option.some ((v1 * 4 + v2 / 16) :: (v2 % 16 * 16 + v3 / 4) :: (v3 % 4 * 64 + v4) :: tail)

/-- `Base64UrlUnpadded::decode` on a string. -/
def b64uDecode (s : String) : Option (List Nat) :=
  b64uDecodeChars s.data

/-! ## SHA-2 and HMAC

Modelled from the spec: the MAC engine collaborators — the RustCrypto
`sha2` and `hmac` crates behind the `HmacSha256/384/512` aliases — are
external dependencies assumed correct; they are embedded here directly
from FIPS 180-4 (SHA-2) and RFC 2104 (HMAC). -/

namespace Sha2

/-- Parameters distinguishing the SHA-2 family members. -/
structure Params where
  w : Nat
  blockBytes : Nat
  lenBytes : Nat
  rs0 : Nat × Nat × Nat
  rs1 : Nat × Nat × Nat
  ss0 : Nat × Nat × Nat
  ss1 : Nat × Nat × Nat
  k : List Nat
  h0 : List Nat
  outBytes : Nat

/-- Rotate a `w`-bit word right by `n`. -/
def rotr (w n x : Nat) : Nat :=
  ((x >>> n) ||| (x <<< (w - n))) % (2 ^ w)

/-- Big sigma: three rotations xored. -/
def bigSigma (w : Nat) : Nat × Nat × Nat → Nat → Nat
  | (r1, r2, r3), x => rotr w r1 x ^^^ rotr w r2 x ^^^ rotr w r3 x

/-- Small sigma: two rotations and a shift xored. -/
def smallSigma (w : Nat) : Nat × Nat × Nat → Nat → Nat
  | (r1, r2, s), x => rotr w r1 x ^^^ rotr w r2 x ^^^ (x >>> s)

/-- Choice function. -/
def ch (w x y z : Nat) : Nat :=
  (x &&& y) ^^^ ((x ^^^ (2 ^ w - 1)) &&& z)

/-- Majority function. -/
def maj (x y z : Nat) : Nat :=
  (x &&& y) ^^^ (x &&& z) ^^^ (y &&& z)

/-- Fixed-width big-endian bytes of a number. -/
def beBytes : Nat → Nat → List Nat
  | 0, _ => []
  | n + 1, v => beBytes n (v / 256) ++ [v % 256]

/-- Merkle-Damgard padding: `0x80`, zeros, and the bit length, filling to a
block boundary. -/
def padMsg (p : Params) (msg : List Nat) : List Nat :=
  let len := msg.length
  let rem := (len + 1 + p.lenBytes) % p.blockBytes
  let zeros := (p.blockBytes - rem) % p.blockBytes
  msg ++ 128 :: List.replicate zeros 0 ++ beBytes p.lenBytes (8 * len)

/-- Pack bytes into big-endian `wb`-byte words (strict accumulator). -/
def bytesToWordsAux (wb : Nat) : List Nat → Nat → Nat → List Nat → List Nat
  | [], _, _, ws => ws.reverse
  | b :: bs, cnt, cur, ws =>
    seqNat (cur * 256 + b) fun cur2 =>
    if cnt + 1 = wb then bytesToWordsAux wb bs 0 0 (cur2 :: ws)
    else bytesToWordsAux wb bs (cnt + 1) cur2 ws

/-- Pack bytes into big-endian `wb`-byte words. -/
def bytesToWords (wb : Nat) (bs : List Nat) : List Nat :=
  bytesToWordsAux wb bs 0 0 []

/-- Group a word list into 16-word blocks (strict accumulator). -/
def toBlocksAux : List Nat → Nat → List Nat → List (List Nat) → List (List Nat)
  | [], _, _, acc => acc.reverse
  | wd :: ws, cnt, cur, acc =>
    if cnt + 1 = 16 then toBlocksAux ws 0 [] ((wd :: cur).reverse :: acc)
    else toBlocksAux ws (cnt + 1) (wd :: cur) acc

/-- Group a word list into 16-word blocks. -/
def toBlocks (ws : List Nat) : List (List Nat) :=
  toBlocksAux ws 0 [] []

/-- Message-schedule extension; `acc` holds the words most recent first. -/
def extendAux (p : Params) : Nat → List Nat → List Nat
  | 0, acc => acc.reverse
  | r + 1, acc =>
    seqNat ((smallSigma p.w p.ss1 (acc.getD 1 0) + acc.getD 6 0 +
             smallSigma p.w p.ss0 (acc.getD 14 0) + acc.getD 15 0) % 2 ^ p.w) fun wd =>
    extendAux p r (wd :: acc)

/-- Full message schedule of one block. -/
def schedule (p : Params) (block : List Nat) : List Nat :=
  extendAux p (p.k.length - 16) block.reverse

/-- The compression rounds, state kept as eight registers forced to
literals at every step. -/
def roundsAux (p : Params) :
    List Nat → List Nat → Nat → Nat → Nat → Nat → Nat → Nat → Nat → Nat → List Nat
  | k :: ks, wd :: ws, a, b, c, d, e, f, g, h =>
    seqNat ((h + bigSigma p.w p.rs1 e + ch p.w e f g + k + wd) % 2 ^ p.w) fun t1 =>
    seqNat ((bigSigma p.w p.rs0 a + maj a b c) % 2 ^ p.w) fun t2 =>
    seqNat ((t1 + t2) % 2 ^ p.w) fun a2 =>
    seqNat ((d + t1) % 2 ^ p.w) fun e2 =>
    roundsAux p ks ws a2 a b c e2 e f g
  | _, _, a, b, c, d, e, f, g, h => [a, b, c, d, e, f, g, h]

/-- Compress one 16-word block into the chaining state. -/
def compress (p : Params) (h : List Nat) (block : List Nat) : List Nat :=
  let ws := schedule p block
  let out := roundsAux p p.k ws (h.getD 0 0) (h.getD 1 0) (h.getD 2 0) (h.getD 3 0)
    (h.getD 4 0) (h.getD 5 0) (h.getD 6 0) (h.getD 7 0)
  List.zipWith (fun x y => (x + y) % 2 ^ p.w) h out

/-- Fold the compression function over all blocks. -/
def compressAll (p : Params) : List (List Nat) → List Nat → List Nat
  | [], h => h
  | b :: bs, h => compressAll p bs (compress p (forceNatList h) b)

/-- Unpack words into big-endian bytes. -/
def wordsToBytes (wb : Nat) : List Nat → List Nat
  | [] => []
  | wd :: ws => beBytes wb wd ++ wordsToBytes wb ws

/-- A SHA-2 digest: pad, compress, serialize, truncate. -/
def sha2 (p : Params) (msg : List Nat) : List Nat :=
  (wordsToBytes (p.w / 8) (compressAll p (toBlocks (bytesToWords (p.w / 8) (padMsg p msg))) p.h0)).take p.outBytes

/-- SHA-256 round constants (FIPS 180-4). -/
def k256 : List Nat :=
  [1116352408, 1899447441, 3049323471, 3921009573, 961987163, 1508970993, 2453635748,
   2870763221, 3624381080, 310598401, 607225278, 1426881987, 1925078388, 2162078206,
   2614888103, 3248222580, 3835390401, 4022224774, 264347078, 604807628, 770255983,
   1249150122, 1555081692, 1996064986, 2554220882, 2821834349, 2952996808, 3210313671,
   3336571891, 3584528711, 113926993, 338241895, 666307205, 773529912, 1294757372,
   1396182291, 1695183700, 1986661051, 2177026350, 2456956037, 2730485921, 2820302411,
   3259730800, 3345764771, 3516065817, 3600352804, 4094571909, 275423344, 430227734,
   506948616, 659060556, 883997877, 958139571, 1322822218, 1537002063, 1747873779,
   1955562222, 2024104815, 2227730452, 2361852424, 2428436474, 2756734187, 3204031479,
   3329325298]

/-- SHA-256 initial state. -/
def h256 : List Nat :=
  [1779033703, 3144134277, 1013904242, 2773480762, 1359893119, 2600822924, 528734635,
   1541459225]

/-- SHA-256 parameters. -/
def params256 : Params :=
  { w := 32, blockBytes := 64, lenBytes := 8,
    rs0 := (2, 13, 22), rs1 := (6, 11, 25), ss0 := (7, 18, 3), ss1 := (17, 19, 10),
    k := k256, h0 := h256, outBytes := 32 }

/-- SHA-512 round constants (FIPS 180-4). -/
def k512 : List Nat :=
  [4794697086780616226, 8158064640168781261, 13096744586834688815, 16840607885511220156,
   4131703408338449720, 6480981068601479193, 10538285296894168987, 12329834152419229976,
   15566598209576043074, 1334009975649890238, 2608012711638119052, 6128411473006802146,
   8268148722764581231, 9286055187155687089, 11230858885718282805, 13951009754708518548,
   16472876342353939154, 17275323862435702243, 1135362057144423861, 2597628984639134821,
   3308224258029322869, 5365058923640841347, 6679025012923562964, 8573033837759648693,
   10970295158949994411, 12119686244451234320, 12683024718118986047, 13788192230050041572,
   14330467153632333762, 15395433587784984357, 489312712824947311, 1452737877330783856,
   2861767655752347644, 3322285676063803686, 5560940570517711597, 5996557281743188959,
   7280758554555802590, 8532644243296465576, 9350256976987008742, 10552545826968843579,
   11727347734174303076, 12113106623233404929, 14000437183269869457, 14369950271660146224,
   15101387698204529176, 15463397548674623760, 17586052441742319658, 1182934255886127544,
   1847814050463011016, 2177327727835720531, 2830643537854262169, 3796741975233480872,
   4115178125766777443, 5681478168544905931, 6601373596472566643, 7507060721942968483,
   8399075790359081724, 8693463985226723168, 9568029438360202098, 10144078919501101548,
   10430055236837252648, 11840083180663258601, 13761210420658862357, 14299343276471374635,
   14566680578165727644, 15097957966210449927, 16922976911328602910, 17689382322260857208,
   500013540394364858, 748580250866718886, 1242879168328830382, 1977374033974150939,
   2944078676154940804, 3659926193048069267, 4368137639120453308, 4836135668995329356,
   5532061633213252278, 6448918945643986474, 6902733635092675308, 7801388544844847127]

/-- SHA-512 initial state. -/
def h512 : List Nat :=
  [7640891576956012808, 13503953896175478587, 4354685564936845355, 11912009170470909681,
   5840696475078001361, 11170449401992604703, 2270897969802886507, 6620516959819538809]

/-- SHA-384 initial state. -/
def h384 : List Nat :=
  [14680500436340154072, 7105036623409894663, 10473403895298186519, 1526699215303891257,
   7436329637833083697, 10282925794625328401, 15784041429090275239, 5167115440072839076]

/-- SHA-512 parameters. -/
def params512 : Params :=
  { w := 64, blockBytes := 128, lenBytes := 16,
    rs0 := (28, 34, 39), rs1 := (14, 18, 41), ss0 := (1, 8, 7), ss1 := (19, 61, 6),
    k := k512, h0 := h512, outBytes := 64 }

/-- SHA-384 parameters: SHA-512 with its own initial state, truncated. -/
def params384 : Params :=
  { params512 with h0 := h384, outBytes := 48 }

/-- SHA-256 of a byte list. -/
def sha256 (msg : List Nat) : List Nat := sha2 params256 msg

/-- SHA-384 of a byte list. -/
def sha384 (msg : List Nat) : List Nat := sha2 params384 msg

/-- SHA-512 of a byte list. -/
def sha512 (msg : List Nat) : List Nat := sha2 params512 msg

/-- RFC 2104 key normalization: keys longer than a block are hashed, then
every key is zero-padded to the block size.  Total for every key length —
this is why `Hmac::new_from_slice` never reports `InvalidLength`. -/
def hmacBlockKey (hash : List Nat → List Nat) (blockBytes : Nat) (key : List Nat) : List Nat :=
  let k0 := if blockBytes < key.length then hash key else key
  k0 ++ List.replicate (blockBytes - k0.length) 0

/-- RFC 2104 HMAC over the given hash. -/
def hmac (hash : List Nat → List Nat) (blockBytes : Nat) (key msg : List Nat) : List Nat :=
  let k0 := hmacBlockKey hash blockBytes key
  hash ((k0.map fun b => b ^^^ 92) ++ hash ((k0.map fun b => b ^^^ 54) ++ msg))

end Sha2

/-! ## The jose-jws envelope -/

namespace Jws

/-- Modelled from the spec: the `Signing` algorithm enumeration of the
`jose-jwa` collaborator (its declaration is not among the sources; the
variant set and their wire strings are the spec's registered
`AlgorithmTag` list, pinned exactly by jose-jwa's
`test_signing_roundtrip`). -/
inductive Signing where
  | EdDsa
  | Es256
  | Es256K
  | Es384
  | Es512
  | Hs256
  | Hs384
  | Hs512
  | Ps256
  | Ps384
  | Ps512
  | Rs256
  | Rs384
  | Rs512
  | None
deriving DecidableEq

/-- Wire string of an algorithm tag, as jose-jwa serializes it. -/
def Signing.tag : Signing → String
  | Signing.EdDsa => "EdDSA"
  | Signing.Es256 => "ES256"
  | Signing.Es256K => "ES256K"
  | Signing.Es384 => "ES384"
  | Signing.Es512 => "ES512"
  | Signing.Hs256 => "HS256"
  | Signing.Hs384 => "HS384"
  | Signing.Hs512 => "HS512"
  | Signing.Ps256 => "PS256"
  | Signing.Ps384 => "PS384"
  | Signing.Ps512 => "PS512"
  | Signing.Rs256 => "RS256"
  | Signing.Rs384 => "RS384"
  | Signing.Rs512 => "RS512"
  | Signing.None => "none"

/-- Every algorithm tag, in jose-jwa's declaration order. -/
def Signing.all : List Signing :=
  [Signing.EdDsa, Signing.Es256, Signing.Es256K, Signing.Es384, Signing.Es512,
   Signing.Hs256, Signing.Hs384, Signing.Hs512, Signing.Ps256, Signing.Ps384,
   Signing.Ps512, Signing.Rs256, Signing.Rs384, Signing.Rs512, Signing.None]

/-- Parse an algorithm tag string (derived serde deserialization of the
enumeration). -/
def signingFromTag (t : String) : Option Signing :=
  Signing.all.find? fun a => a.tag == t

/-- The three concrete MAC engines of signing.rs:
`HmacSha256 = Hmac<sha2::Sha256>`, `HmacSha384`, `HmacSha512`.  These are
the only types the crate gives an `AlgorithmMeta` instance, hence the only
instantiations of the blanket `SigningAlg` implementation. -/
inductive HmacAlg where
  | hmacSha256
  | hmacSha384
  | hmacSha512
deriving DecidableEq

/-- `AlgorithmMeta::ALGORITHM` for the three engines (signing.rs 63-71). -/
def HmacAlg.algorithm : HmacAlg → Signing
  | HmacAlg.hmacSha256 => Signing.Hs256
  | HmacAlg.hmacSha384 => Signing.Hs384
  | HmacAlg.hmacSha512 => Signing.Hs512

/-- The keyed MAC an engine computes, finalized to bytes
(`SigningAlg::convert` turns the `CtOutput` into the signature bytes). -/
def HmacAlg.mac : HmacAlg → List Nat → List Nat → List Nat
  | HmacAlg.hmacSha256, key, msg => Sha2.hmac Sha2.sha256 64 key msg
  | HmacAlg.hmacSha384, key, msg => Sha2.hmac Sha2.sha384 128 key msg
  | HmacAlg.hmacSha512, key, msg => Sha2.hmac Sha2.sha512 128 key msg

/-- `hmac::digest::InvalidLength`, a fieldless error value. -/
inductive InvalidLength where
  | mk
deriving DecidableEq

/-- An initialized incremental MAC, as the `Mac` trait exposes it: the
absorbed bytes accumulate until `finalize`. -/
structure MacEngine where
  alg : HmacAlg
  key : List Nat
  buf : List Nat

/-- `Mac::update`: absorb bytes. -/
def MacEngine.update (m : MacEngine) (bs : List Nat) : MacEngine :=
  { m with buf := m.buf ++ bs }

/-- `Mac::finalize` (then `SigningAlg::convert`): the MAC of everything
absorbed, keyed by the engine's key. -/
def MacEngine.finalize (m : MacEngine) : List Nat :=
  m.alg.mac m.key m.buf

/-- `<Alg as Mac>::new_from_slice(key)`.  For `Hmac<D>` every key length is
valid — RFC 2104 hashes long keys and zero-pads short ones — so the
initialization never reports `InvalidLength`; the `Result` shape is kept
because `sign_bytes` propagates it with `?`. -/
def macNewFromSlice (alg : HmacAlg) (key : List Nat) : Except InvalidLength MacEngine :=
  Except.ok { alg := alg, key := key, buf := [] }

/-- `SignError` (formats.rs 66-71). -/
inductive SignError where
  | length (e : InvalidLength)
  | serialization
deriving DecidableEq

/-- `Protected<Phd>` (signing.rs 166-174): the `alg` tag plus a flattened
caller-supplied extension.  `extra = none` models a zero-sized `Phd`
(`skip_serializing_if = "is_zst"` drops the field from serialization
entirely); `extra = some v` models a non-zero-sized `Phd` whose own serde
serialization is `v`. -/
structure Protected where
  alg : Signing
  extra : Option Json

/-- Derived serde serialization of `Protected`: the `alg` tag first, then
the extension's fields flattened into the same object (`serde(flatten)`),
which fails — `SignError::Serialization` upstream — when a non-zero-sized
extension serializes to something other than a map. -/
def Protected.serialize (p : Protected) : Option Json :=
  match p.extra with
  | Option.none => Option.some (Json.obj [("alg", Json.str p.alg.tag)])
  | Option.some (Json.obj kvs) => Option.some (Json.obj (("alg", Json.str p.alg.tag) :: kvs))
  | Option.some _ => Option.none

/-- Signature payload state.  In the source this is the type-state
`Signing: MaybeSigned` parameter: `absent` is `B64Bytes<Empty>` (the
zero-sized `SigData` of `Unsigned`, skipped by serialization), `present`
is `B64Bytes<Box<[u8]>>` holding the MAC output of a signed envelope. -/
inductive SigState where
  | absent
  | present (bytes : List Nat)
deriving DecidableEq

/-- `Signature<Phd, Uhd, Signing>` (signing.rs 86-97): protected header,
unprotected header, signature value.  `unprotected = none` models a
zero-sized `Uhd` such as `Empty` (skipped by `skip_serializing_if =
"is_zst"`); `some v` a non-zero-sized unprotected header serializing
to `v`. -/
structure Signature where
  protected_ : Protected
  unprotected : Option Json
  signature : SigState

/-- The RFC 7515 signing input: ASCII bytes of base64url(header JSON), the
single dot byte (`asciiBytes "." = [46]`), ASCII bytes of
base64url(payload). -/
def macSigningInput (headerJson : Json) (payload : List Nat) : List Nat :=
  asciiBytes (b64uEncode (jsonBytes headerJson)) ++ asciiBytes "." ++ asciiBytes (b64uEncode payload)

/-- `Signature::sign_bytes` (signing.rs 114-133): set the algorithm into
the protected header, initialize the MAC from the caller's key, serialize
the updated protected header, absorb base64url(header), `"."`, and
base64url(payload), and return the envelope with the finalized tag and the
unprotected header carried over. -/
def Signature.sign_bytes (s : Signature) (alg : HmacAlg) (key bytes : List Nat) :
    Except SignError Signature :=
  let prot : Protected := { s.protected_ with alg := alg.algorithm }
  match macNewFromSlice alg key with
  | Except.error e => Except.error (SignError.length e)
  | Except.ok mac0 =>
    match prot.serialize with
    | Option.none => Except.error SignError.serialization
    | Option.some headerJson =>
      let header := jsonBytes headerJson
      let mac1 := mac0.update (asciiBytes (b64uEncode header))
      let mac2 := mac1.update (asciiBytes ".")
      let mac3 := mac2.update (asciiBytes (b64uEncode bytes))
      Except.ok { protected_ := prot, unprotected := s.unprotected,
                  signature := SigState.present mac3.finalize }

/-- `Signature::unsign` (signing.rs 136-143): reset the algorithm to
`none` and the signature to the empty unsigned state. -/
def Signature.unsign (s : Signature) : Signature :=
  { protected_ := { s.protected_ with alg := Signing.None },
    unprotected := s.unprotected, signature := SigState.absent }

/-- `Signature::new_unsigned` (signing.rs 148-157). -/
def Signature.new_unsigned (prot unprot : Option Json) : Signature :=
  { protected_ := { alg := Signing.None, extra := prot },
    unprotected := unprot, signature := SigState.absent }

/-- `JwsSignable::sign_payload` (formats.rs 30-39): serialize the payload
with `serde_json::to_vec` — total on `Json` values — then `sign_bytes`. -/
def Signature.sign_payload (s : Signature) (alg : HmacAlg) (key : List Nat) (payload : Json) :
    Except SignError Signature :=
  s.sign_bytes alg key (jsonBytes payload)

/-- Derived serde serialization of `Signature` (signing.rs 86-97): the
`protected` field through `Protected`'s serializer — a plain JSON object;
the field's comment says "base64 serialized" but the field type
`Protected<Phd>` performs no base64 step — then `header` unless `Uhd` is
zero-sized, then `signature` as the base64url string of the MAC bytes
(`B64Bytes`), skipped when zero-sized (unsigned). -/
def Signature.serialize (s : Signature) : Option Json :=
  match s.protected_.serialize with
  | Option.none => Option.none
  | Option.some pj =>
    Option.some (Json.obj (("protected", pj) ::
      ((match s.unprotected with
        | Option.none => []
        | Option.some u => [("header", u)]) ++
       (match s.signature with
        | SigState.absent => []
        | SigState.present bs => [("signature", Json.str (b64uEncode bs))]))))

/-- Deserialization failure, as serde's derived deserializer reports it. -/
inductive DeError where
  | missingField (name : String)
  | invalidValue
deriving DecidableEq

/-- Derived serde deserialization of `Protected` with a flattened
extension: `alg` is parsed from the `"alg"` key, every remaining field
goes to the extension map. -/
def Protected.deserialize (j : Json) : Except DeError Protected :=
  match j with
  | Json.obj kvs =>
    match jsonLookup "alg" kvs with
    | Option.none => Except.error (DeError.missingField "alg")
    | Option.some (Json.str t) =>
      match signingFromTag t with
      | Option.none => Except.error DeError.invalidValue
      | Option.some a =>
        Except.ok { alg := a, extra := Option.some (Json.obj (kvs.filter fun kv => kv.1 != "alg")) }
    | Option.some _ => Except.error DeError.invalidValue
  | _ => Except.error DeError.invalidValue

/-- Derived serde deserialization of `Signature` at the instantiations the
crate uses (`Uhd = Empty`, accepting only `null`; signature bytes from a
base64url string through `B64Bytes`).  The derive carries no
`#[serde(default)]`, so each of the three fields must be present in the
input object; a missing field is an error, reported in field order. -/
def Signature.deserialize (j : Json) : Except DeError Signature :=
  match j with
  | Json.obj kvs =>
    match jsonLookup "protected" kvs with
    | Option.none => Except.error (DeError.missingField "protected")
    | Option.some pj =>
      match Protected.deserialize pj with
      | Except.error e => Except.error e
      | Except.ok prot =>
        match jsonLookup "header" kvs with
        | Option.none => Except.error (DeError.missingField "header")
        | Option.some Json.null =>
          match jsonLookup "signature" kvs with
          | Option.none => Except.error (DeError.missingField "signature")
          | Option.some (Json.str sb) =>
            match b64uDecode sb with
            | Option.none => Except.error DeError.invalidValue
            | Option.some bs =>
              Except.ok { protected_ := prot, unprotected := Option.none,
                          signature := SigState.present bs }
          | Option.some _ => Except.error DeError.invalidValue
        | Option.some _ => Except.error DeError.invalidValue
  | _ => Except.error DeError.invalidValue

/-- `Flat<Phd, Uhd, Signing>` (formats.rs 112): a newtype over
`Signature` whose serde instances delegate to the inner value. -/
structure Flat where
  inner : Signature

/-- `<Flat as JwsSignable>::sign_bytes` (formats.rs 146-152). -/
def Flat.sign_bytes (f : Flat) (alg : HmacAlg) (key bytes : List Nat) :
    Except SignError Flat :=
  (f.inner.sign_bytes alg key bytes).map Flat.mk

/-- `JwsSignable::sign_payload` at `Flat` (formats.rs 30-39). -/
def Flat.sign_payload (f : Flat) (alg : HmacAlg) (key : List Nat) (payload : Json) :
    Except SignError Flat :=
  (f.inner.sign_payload alg key payload).map Flat.mk

/-- `<Flat as JwsSignable>::into_unsigned` (formats.rs 154-156). -/
def Flat.into_unsigned (f : Flat) : Flat :=
  Flat.mk f.inner.unsign

/-- `<Flat as JwsSignable>::encode_string` (formats.rs 158-161):
`serde_json::to_string(&self).unwrap()`; `none` models the panic when the
extension cannot be serialized. -/
def Flat.encode_string (f : Flat) : Option String :=
  (Signature.serialize f.inner).map jsonRender

/-- `<Flat as Deserialize>::deserialize` (formats.rs 126-135): delegate to
`Signature`'s deserializer.  (Parsing JSON text to a `Json` value is
`serde_json`'s job, assumed correct; this consumes the parsed value.) -/
def Flat.deserialize (j : Json) : Except DeError Flat :=
  (Signature.deserialize j).map Flat.mk

/-- `<Flat as JwsVerifyable>::decode` (formats.rs 163-172): parses the
JSON with `unwrap`, binds the result, and unconditionally reaches
`todo!()`; the key is never inspected and no value is ever returned.
`none` models the panic. -/
def Flat.decode (_data : String) (_key : List Nat) : Option Flat :=
  Option.none

/-- `Compact<Phd, Signing>` (formats.rs 79-85): wraps a
`Signature<Phd, Empty, Signing>` — the unprotected-header type parameter
is fixed to the zero-sized `Empty`, so no unprotected header is
representable. -/
structure Compact where
  signature : Signature
  unprotected_empty : signature.unprotected = Option.none

/-- `Compact` does not implement `JwsSignable` (the impl at formats.rs
line 86 is commented out), and the trait's default `encode_string` body is
`todo!()` (formats.rs 56-58); no Compact wire encoding exists in the
crate.  `none` models that absence. -/
def Compact.encode_string (_c : Compact) : Option String :=
  Option.none

end Jws

/-! ## Fixtures

The crate's own HS256 test vector (formats.rs `test_flat`, drawn from the
RFC 7515 example header and payload). -/

namespace Jws

/-- Protected-header extension of the fixture. -/
def c3Extension : Json := Json.obj [("typ", Json.str "JWT")]

/-- Payload of the fixture, fields in the order the test writes them. -/
def c3Payload : Json :=
  Json.obj [("iss", Json.str "joe"), ("exp", Json.num 1300819380),
            ("http://example.com/is_root", Json.bool true)]

/-- HMAC-SHA-256 bytes of the fixture's signing input under key `"hi"`. -/
def c3SigBytes : List Nat :=
  [238, 49, 201, 107, 137, 19, 123, 109, 220, 248, 155, 2, 53, 225, 205, 112, 0, 11,
   63, 40, 149, 7, 247, 27, 6, 48, 171, 87, 254, 78, 112, 175]

/-- The signed Flat envelope of the fixture. -/
def c3Signed : Flat :=
  Flat.mk { protected_ := { alg := Signing.Hs256, extra := Option.some c3Extension },
            unprotected := Option.none, signature := SigState.present c3SigBytes }

/-- Wire string `encode_string` produces for the fixture. -/
def c3WireString : String :=
  "\x7b\"protected\":\x7b\"alg\":\"HS256\",\"typ\":\"JWT\"\x7d,\"signature\":\"7jHJa4kTe23c-JsCNeHNcAALPyiVB_cbBjCrV_5OcK8\"\x7d"

/-- The fixture's wire object as parsed JSON. -/
def c3WireJson : Json :=
  Json.obj [("protected", Json.obj [("alg", Json.str "HS256"), ("typ", Json.str "JWT")]),
            ("signature", Json.str "7jHJa4kTe23c-JsCNeHNcAALPyiVB_cbBjCrV_5OcK8")]

/-- An unsigned envelope with a header extension, empty unprotected data,
and absent signature. -/
def c9Env : Signature := Signature.new_unsigned (Option.some c3Extension) Option.none

/-- Its serialized Flat object: only the `protected` key. -/
def c9WireJson : Json :=
  Json.obj [("protected", Json.obj [("alg", Json.str "none"), ("typ", Json.str "JWT")])]

/-! ## Supporting lemmas -/

/-- Inversion of a successful `sign_bytes`: the updated header serialized,
and the output is the updated header, the carried-over unprotected header,
and the MAC of the RFC 7515 signing input. -/
theorem sign_bytes_ok (s out : Signature) (alg : HmacAlg) (key payload : List Nat)
    (h : s.sign_bytes alg key payload = Except.ok out) :
    ∃ hj : Json,
      Protected.serialize { alg := alg.algorithm, extra := s.protected_.extra } = Option.some hj ∧
      out = { protected_ := { alg := alg.algorithm, extra := s.protected_.extra },
              unprotected := s.unprotected,
              signature := SigState.present (alg.mac key (macSigningInput hj payload)) } := by
  simp only [Signature.sign_bytes, macNewFromSlice] at h
  split at h
  · exact absurd h (by simp)
  · refine ⟨_, ‹_›, ?_⟩
    cases h.symm
    simp [MacEngine.update, MacEngine.finalize, macSigningInput, List.append_assoc]

/-- No concrete engine has the `none` tag. -/
theorem hmacAlg_algorithm_ne_none (alg : HmacAlg) : alg.algorithm ≠ Signing.None := by
  cases alg <;> decide

/-! ## The claims -/

/-- C1: for every protected-header extension, unprotected header, key, and
payload, `sign_bytes` first sets the protected header's `alg` field to the
signing algorithm's tag and then computes, with the caller-supplied key,
the keyed MAC of the ASCII bytes of base64url(JSON of the updated
protected header), a single `.` byte, and the ASCII bytes of
base64url(payload); the returned envelope carries that MAC output as its
signature and the unchanged unprotected header. -/
theorem c1_sign_bytes_canonical_mac (alg : HmacAlg) (s : Signature)
    (key payload : List Nat) (hj : Json)
    (h : Protected.serialize { alg := alg.algorithm, extra := s.protected_.extra } =
      Option.some hj) :
    s.sign_bytes alg key payload = Except.ok
      { protected_ := { alg := alg.algorithm, extra := s.protected_.extra },
        unprotected := s.unprotected,
        signature := SigState.present (alg.mac key (macSigningInput hj payload)) } := by
  simp only [Signature.sign_bytes, macNewFromSlice, h, MacEngine.update, MacEngine.finalize,
    macSigningInput, List.nil_append, List.append_assoc]

/-- C1 witness: the theorem applied at a concrete envelope, key `"hi"`,
empty payload. -/
theorem c1_witness :
    Protected.serialize { alg := HmacAlg.hmacSha256.algorithm, extra := (Option.none : Option Json) } =
      Option.some (Json.obj [("alg", Json.str "HS256")]) ∧
    Signature.sign_bytes (Signature.new_unsigned Option.none Option.none) HmacAlg.hmacSha256
      (asciiBytes "hi") [] = Except.ok
      { protected_ := { alg := HmacAlg.hmacSha256.algorithm, extra := Option.none },
        unprotected := Option.none,
        signature := SigState.present (HmacAlg.hmacSha256.mac (asciiBytes "hi")
          (macSigningInput (Json.obj [("alg", Json.str "HS256")]) [])) } :=
  ⟨rfl, c1_sign_bytes_canonical_mac HmacAlg.hmacSha256
    (Signature.new_unsigned Option.none Option.none) (asciiBytes "hi") [] _ rfl⟩

/-- C2: the crate has no verify operation.  `<Flat as JwsVerifyable>::decode`
is the only key-consuming entry point, and its body parses the JSON and then
unconditionally hits `todo!()` — it never recomputes a MAC, never compares
tags, and the crate declares no `VerifyError` type.  Evaluated at the
crate's own fixture wire string and key. -/
theorem c2_verify_unimplemented :
    Flat.decode c3WireString (asciiBytes "hi") = Option.none := rfl

set_option maxRecDepth 200000 in
/-- C3: signing the fixture — protected extension `typ: JWT`, the RFC
payload, key `"hi"`, HS256 — succeeds; the signature's base64url segment is
exactly `7jHJa4kTe23c-JsCNeHNcAALPyiVB_cbBjCrV_5OcK8`; and the signed
envelope's Flat JSON serialization is the expected two-field object. -/
theorem c3_hs256_fixture :
    Flat.sign_payload (Flat.mk (Signature.new_unsigned (Option.some c3Extension) Option.none))
        HmacAlg.hmacSha256 (asciiBytes "hi") c3Payload = Except.ok c3Signed ∧
    b64uEncode c3SigBytes = "7jHJa4kTe23c-JsCNeHNcAALPyiVB_cbBjCrV_5OcK8" ∧
    Flat.encode_string c3Signed = Option.some c3WireString := by
  refine ⟨?_, by decide, by decide⟩
  rfl

/-- Envelope states reachable through the public transitions
`new_unsigned`, `sign_bytes`, and `unsign`. -/
inductive Reachable : Signature → Prop where
  | new_unsigned (prot unprot : Option Json) :
      Reachable (Signature.new_unsigned prot unprot)
  | sign (s out : Signature) (alg : HmacAlg) (key payload : List Nat) :
      Reachable s → s.sign_bytes alg key payload = Except.ok out → Reachable out
  | unsign (s : Signature) : Reachable s → Reachable s.unsign

/-- Envelope consistency: the `none` tag goes with an absent signature,
and otherwise the tag names an actual engine whose MAC output over an RFC
7515 signing input the signature carries. -/
def Consistent (s : Signature) : Prop :=
  (s.protected_.alg = Signing.None ∧ s.signature = SigState.absent) ∨
  (∃ alg : HmacAlg, ∃ key payload : List Nat, ∃ hj : Json,
    s.protected_.alg = alg.algorithm ∧ alg.algorithm ≠ Signing.None ∧
    s.signature = SigState.present (alg.mac key (macSigningInput hj payload)))

/-- C4: `new_unsigned` and `unsign` produce the `none` tag with an absent
signature; a successful `sign_bytes` produces the signing algorithm's tag
with the signature the algorithm computed and the unprotected header
unchanged; and every envelope reachable through the public transitions is
consistent — never `none` with a signature present, never an engine tag
with the signature absent. -/
theorem c4_envelope_state_consistent :
    (∀ prot unprot : Option Json,
      (Signature.new_unsigned prot unprot).protected_.alg = Signing.None ∧
      (Signature.new_unsigned prot unprot).signature = SigState.absent) ∧
    (∀ s : Signature,
      s.unsign.protected_.alg = Signing.None ∧ s.unsign.signature = SigState.absent) ∧
    (∀ (s out : Signature) (alg : HmacAlg) (key payload : List Nat),
      s.sign_bytes alg key payload = Except.ok out →
      out.protected_.alg = alg.algorithm ∧ out.unprotected = s.unprotected ∧
      ∃ hj : Json, out.signature = SigState.present (alg.mac key (macSigningInput hj payload))) ∧
    (∀ s : Signature, Reachable s → Consistent s) := by
  refine ⟨fun prot unprot => ⟨rfl, rfl⟩, fun s => ⟨rfl, rfl⟩, ?_, ?_⟩
  · intro s out alg key payload h
    obtain ⟨hj, -, rfl⟩ := sign_bytes_ok s out alg key payload h
    exact ⟨rfl, rfl, hj, rfl⟩
  · intro s hr
    induction hr with
    | new_unsigned prot unprot => exact Or.inl ⟨rfl, rfl⟩
    | sign s out alg key payload hr heq ih =>
      obtain ⟨hj, -, rfl⟩ := sign_bytes_ok s out alg key payload heq
      exact Or.inr ⟨alg, key, payload, hj, rfl, hmacAlg_algorithm_ne_none alg, rfl⟩
    | unsign s hr ih => exact Or.inl ⟨rfl, rfl⟩

/-- C4 witness: the theorem's reachability part applied to a concretely
constructed envelope. -/
theorem c4_witness : Consistent (Signature.new_unsigned Option.none Option.none) :=
  c4_envelope_state_consistent.2.2.2 (Signature.new_unsigned Option.none Option.none)
    (Reachable.new_unsigned Option.none Option.none)

/-- C5: the Flat wire form does not carry the protected header as the
base64url of its JSON bytes (the form used as MAC input): at the crate's
own fixture the derived serializer emits the header as a plain JSON
object, not the base64url string `eyJhbGciOiJIUzI1NiIsInR5cCI6IkpXVCJ9`
that the MAC consumed. -/
theorem c5_protected_not_base64url :
    Signature.serialize c3Signed.inner = Option.some c3WireJson ∧
    Flat.encode_string c3Signed ≠ Option.some
      "\x7b\"protected\":\"eyJhbGciOiJIUzI1NiIsInR5cCI6IkpXVCJ9\",\"signature\":\"7jHJa4kTe23c-JsCNeHNcAALPyiVB_cbBjCrV_5OcK8\"\x7d" := by
  exact ⟨rfl, by decide⟩

/-- C6: decode after encode is not the identity.  At the fixture, Flat
encoding omits the `header` field (the zero-sized `Empty` unprotected
type is skipped), but the derived deserializer has no serde defaults and
fails on exactly that missing field; and `Compact` has no encoding at all
(its `JwsSignable` impl is commented out, the trait default is a
`todo!()` stub). -/
theorem c6_roundtrip_decode_fails :
    Flat.encode_string c3Signed = Option.some c3WireString ∧
    Flat.deserialize c3WireJson = Except.error (DeError.missingField "header") ∧
    Compact.encode_string (Compact.mk c3Signed.inner rfl) = Option.none := by
  refine ⟨by decide, ?_, rfl⟩
  rfl

/-- C7: serializing a protected header yields a single JSON object whose
`alg` field carries the algorithm's tag string with the extension's fields
merged into the same object after it; a zero-sized (field-less) extension
contributes nothing, leaving only `alg`. -/
theorem c7_protected_header_flatten (p : Protected) :
    (p.extra = Option.none →
      p.serialize = Option.some (Json.obj [("alg", Json.str p.alg.tag)])) ∧
    (∀ kvs : List (String × Json), p.extra = Option.some (Json.obj kvs) →
      p.serialize = Option.some (Json.obj (("alg", Json.str p.alg.tag) :: kvs))) := by
  constructor
  · intro h
    simp [Protected.serialize, h]
  · intro kvs h
    simp [Protected.serialize, h]

/-- C7 witness: the theorem applied to the crate's own `test_protected`
fixtures — `Extra { a: "foo", b: 100 }` under tag `none`, and the empty
extension under `ES256`. -/
theorem c7_witness :
    Protected.serialize { alg := Signing.Es256, extra := Option.none } =
      Option.some (Json.obj [("alg", Json.str "ES256")]) ∧
    Protected.serialize
        { alg := Signing.None,
          extra := Option.some (Json.obj [("a", Json.str "foo"), ("b", Json.num 100)]) } =
      Option.some (Json.obj
        [("alg", Json.str "none"), ("a", Json.str "foo"), ("b", Json.num 100)]) :=
  ⟨(c7_protected_header_flatten { alg := Signing.Es256, extra := Option.none }).1 rfl,
   (c7_protected_header_flatten _).2 [("a", Json.str "foo"), ("b", Json.num 100)] rfl⟩

/-- C8: no unprotected header is representable in `Compact` (its
unprotected-header type is fixed to the zero-sized `Empty`), but the
claimed dot-joined wire form and the `FormatError::UnprotectedNotSupported`
construction error do not exist in the crate: `Compact` has no
`JwsSignable` impl, the trait's default `encode_string` is a `todo!()`
stub, and no `FormatError` type is declared. -/
theorem c8_compact_not_encodable :
    (∀ c : Compact, c.signature.unprotected = Option.none) ∧
    Compact.encode_string (Compact.mk c9Env rfl) = Option.none :=
  ⟨fun c => c.unprotected_empty, rfl⟩

/-- C9: an envelope with empty unprotected data and an absent signature
serializes to a Flat object containing only the `protected` key — but
re-decoding that object does not return the original envelope: the
derived deserializer fails on the missing `header` field. -/
theorem c9_omission_without_roundtrip :
    Signature.serialize c9Env = Option.some c9WireJson ∧
    (Signature.serialize c9Env).map jsonRender =
      Option.some "\x7b\"protected\":\x7b\"alg\":\"none\",\"typ\":\"JWT\"\x7d\x7d" ∧
    Signature.deserialize c9WireJson = Except.error (DeError.missingField "header") := by
  exact ⟨rfl, by decide, rfl⟩

/-- C10: for every key byte string — empty, shorter or longer than the
hash block — and each of the three HMAC engines, the MAC initialization
inside `sign_bytes` succeeds, so signing never returns
`SignError::Length`: that branch is unreachable. -/
theorem c10_sign_never_length_error (alg : HmacAlg) (s : Signature)
    (key payload : List Nat) (e : InvalidLength) :
    s.sign_bytes alg key payload ≠ Except.error (SignError.length e) := by
  simp only [Signature.sign_bytes, macNewFromSlice]
  split
  · simp
  · simp

end Jws
